import Mathlib

/-!
Shallow embedding of the decoding core of the `eufy_x10_debugging` Home
Assistant integration (files `const.py` and `coordinator.py`), together with
proofs of the specified properties of its decoders and poll aggregator.

The raw values handled by the coordinator are Python integers, booleans and
(base64) strings; the `RawValue` variant type models exactly those.  A
`RawSample` models the raw key → value dictionary handed to `_process_data`.
-/

/-- A raw value of a monitored key: Python `int`, `bool` or `str`. -/
inductive RawValue where
  | vInt  (n : Int)
  | vBool (b : Bool)
  | vStr  (s : String)
deriving DecidableEq, Repr

/-- The raw key → value mapping of one poll (`self.raw_data`); `none` means
the key is absent from the dictionary. -/
def RawSample : Type := String → Option RawValue

/-- `MONITORED_KEYS` from `const.py`, in source order. -/
def MONITORED_KEYS : List String :=
  ["163", "167", "177", "178", "168", "153", "152", "158",
   "154", "155", "160", "173"]

/-- `CLEAN_SPEED_NAMES` from `const.py`. -/
def CLEAN_SPEED_NAMES : List String := ["quiet", "standard", "turbo", "max"]

/-- `WORK_STATUS_MAP` from `const.py`, as an association list. -/
def WORK_STATUS_MAP : List (Int × String) :=
  [(0, "standby"), (1, "sleep"), (2, "fault"), (3, "charging"),
   (4, "fast_mapping"), (5, "cleaning"), (6, "remote_ctrl"),
   (7, "go_home"), (8, "cruising")]

/-- All-digit check used by the string branch of `pyInt`. -/
def isDigitStr (cs : List Char) : Bool :=
  !cs.isEmpty && cs.all (fun c => c.isDigit)

/-- Decimal value of a digit list (most significant first). -/
def digitsVal (cs : List Char) : Nat :=
  cs.foldl (fun acc c => acc * 10 + (c.toNat - '0'.toNat)) 0

/-- Python `int(s)` on a string: strip spaces, optional sign, decimal
digits; anything else raises `ValueError` (here: `none`). -/
def pyIntOfStr (s : String) : Option Int :=
  let cs := ((s.data.dropWhile (fun c => c = ' ')).reverse.dropWhile
              (fun c => c = ' ')).reverse
  match cs with
  | '+' :: ds => if isDigitStr ds then some (digitsVal ds : Int) else none
  | '-' :: ds => if isDigitStr ds then some (-(digitsVal ds : Int)) else none
  | ds        => if isDigitStr ds then some (digitsVal ds : Int) else none

/-- Python builtin `int(x)` on a raw value: identity on `int`, `True ↦ 1`
and `False ↦ 0` on `bool`, decimal parse on `str` (failure = the
`ValueError`/`TypeError` caught by `_process_battery`). -/
def pyInt : RawValue → Option Int
  | .vInt n  => some n
  | .vBool b => some (if b then 1 else 0)
  | .vStr s  => pyIntOfStr s

/-- Python `isinstance(x, int)`: the integer value of a raw value when it is
an `int` (booleans included, `bool` being a subclass of `int`), else `none`. -/
def pyIsinstanceInt : RawValue → Option Int
  | .vInt n  => some n
  | .vBool b => some (if b then 1 else 0)
  | .vStr _  => none

/-- Python builtin `bool(x)` on a raw value; total (never raises). -/
def pyBool : RawValue → Bool
  | .vInt n  => n ≠ 0
  | .vBool b => b
  | .vStr s  => s ≠ ""

/-- Value of a character in the standard base64 alphabet. -/
def b64value (c : Char) : Option Nat :=
  if 'A' ≤ c ∧ c ≤ 'Z' then some (c.toNat - 'A'.toNat)
  else if 'a' ≤ c ∧ c ≤ 'z' then some (c.toNat - 'a'.toNat + 26)
  else if '0' ≤ c ∧ c ≤ '9' then some (c.toNat - '0'.toNat + 52)
  else if c = '+' then some 62
  else if c = '/' then some 63
  else none

/-- Bytes emitted when a padding sequence ends a base64 stream with
`quadPos` data characters accumulated in `leftchar`. -/
def b64finalBytes (quadPos leftchar : Nat) : List Nat :=
  if quadPos = 2 then [leftchar / 16]
  else if quadPos = 3 then [leftchar / 4 / 256, leftchar / 4 % 256]
  else []

/-- Main loop of CPython `binascii.a2b_base64` in non-strict mode (the mode
used by `base64.b64decode(s)`): characters outside the alphabet are
discarded; a `=` ends the stream once at least two data characters of the
current group and enough consecutive pads have been seen; a group of four
data characters emits three bytes; at end of input a partially filled group
raises (`none`). -/
def b64loop : List Char → Nat → Nat → Nat → List Nat → Option (List Nat)
  | [], quadPos, _, _, out =>
      if quadPos = 0 then some out else none
  | c :: rest, quadPos, leftchar, pads, out =>
      if c = '=' then
        if 2 ≤ quadPos ∧ 4 ≤ quadPos + pads + 1 then
          some (out ++ b64finalBytes quadPos leftchar)
        else
          b64loop rest quadPos leftchar (pads + 1) out
      else
        match b64value c with
        | none   => b64loop rest quadPos leftchar pads out
        | some v =>
          let lc := leftchar * 64 + v
          if quadPos = 3 then
            b64loop rest 0 0 0 (out ++ [lc / 65536, lc / 256 % 256, lc % 256])
          else
            b64loop rest (quadPos + 1) lc 0 out

/-- Python `base64.b64decode(s)` on a `str`: the argument is first encoded
as ASCII (non-ASCII raises), then decoded by the non-strict binascii loop.
`none` models the `binascii.Error`/`ValueError` caught by
`_process_water_tank`. -/
def b64decode (s : String) : Option (List Nat) :=
  if s.data.any (fun c => 128 ≤ c.toNat) then none
  else b64loop s.data 0 0 0 []

/-- Battery decode (`_process_battery`, value part): `int(raw)` then
`max(0, min(100, battery))`; conversion failure is caught and leaves the
field unset. -/
def decodeBattery (v : RawValue) : Option Int :=
  (pyInt v).map (fun n => max 0 (min 100 n))

/-- Water tank decode (`_process_water_tank`, value part): only `str`
values are considered; base64-decode, require length `> 4`, read byte 4 and
scale by `min(100, int(raw_value * 100 / 255))` (exact on these operands,
so integer floor division). Any failure leaves the field unset. -/
def decodeWaterTank (v : RawValue) : Option Nat :=
  match v with
  | .vStr s =>
    match b64decode s with
    | some bs =>
      if 4 < bs.length then some (min 100 (bs.getD 4 0 * 100 / 255)) else none
    | none => none
  | _ => none

/-- Clean speed decode (`_process_clean_speed`, value part):
`isinstance(raw, int) and 0 <= raw < len(CLEAN_SPEED_NAMES)` then index
into `CLEAN_SPEED_NAMES`. -/
def decodeCleanSpeed (v : RawValue) : Option String :=
  match pyIsinstanceInt v with
  | some n =>
    if 0 ≤ n ∧ n < (CLEAN_SPEED_NAMES.length : Int) then
      CLEAN_SPEED_NAMES.get? n.toNat
    else none
  | none => none

/-- Work status decode (`_process_work_status`, value part):
`isinstance(raw, int) and raw in WORK_STATUS_MAP` then dictionary lookup. -/
def decodeWorkStatus (v : RawValue) : Option String :=
  match pyIsinstanceInt v with
  | some n => WORK_STATUS_MAP.lookup n
  | none   => none

/-- Play/pause decode (`_process_play_pause`, value part): `bool(raw)`,
which cannot fail on any raw value. -/
def decodePlayPause (v : RawValue) : Option Bool :=
  some (pyBool v)

/-- The claim-relevant fields of `self.parsed_data` built by
`_process_data` (timestamps, device id and the raw key list are omitted:
no claim mentions them). -/
structure ParsedData where
  battery : Option Int
  water_tank : Option Nat
  clean_speed : Option String
  work_status : Option String
  play_pause : Option Bool
  monitored_keys_found : List String
  monitored_keys_missing : List String
  update_count : Nat
deriving DecidableEq, Repr

/-- The found/missing classification loop of `_process_data`: one pass over
`MONITORED_KEYS` appending each key to the found or missing list. -/
def classifyKeys (raw : RawSample) : List String × List String :=
  MONITORED_KEYS.foldl
    (fun acc k =>
      if (raw k).isSome then (acc.1 ++ [k], acc.2) else (acc.1, acc.2 ++ [k]))
    ([], [])

/-- `_process_data`: build the parsed snapshot for one poll cycle.  Each
`_process_<field>` helper first tests key presence (returning with the field
unset when the key is missing) and then decodes the value; here that is the
`Option.bind` of the lookup with the value-level decoder. -/
def processData (raw : RawSample) (updateCount : Nat) : ParsedData :=
  { battery := (raw "163").bind decodeBattery
    water_tank := (raw "167").bind decodeWaterTank
    clean_speed := (raw "158").bind decodeCleanSpeed
    work_status := (raw "153").bind decodeWorkStatus
    play_pause := (raw "152").bind decodePlayPause
    monitored_keys_found := (classifyKeys raw).1
    monitored_keys_missing := (classifyKeys raw).2
    update_count := updateCount }

/-- The end-to-end scenario RawSample of the specification:
`{"163": 85, "158": 2, "153": 5, "152": True, "167": base64 of bytes
[0,0,0,0,210]}` (that base64 string is `"AAAAANI="`). -/
def sampleE2E : RawSample := fun k =>
  if k = "163" then some (.vInt 85)
  else if k = "158" then some (.vInt 2)
  else if k = "153" then some (.vInt 5)
  else if k = "152" then some (.vBool true)
  else if k = "167" then some (.vStr "AAAAANI=")
  else none

/-! ## Helper lemmas -/

/-- The single classification pass over the key list equals a pair of
filters of that list. -/
lemma foldl_classify_eq_filter (p : String → Bool) :
    ∀ (l f m : List String),
      l.foldl
        (fun acc k =>
          if p k then (acc.1 ++ [k], acc.2) else (acc.1, acc.2 ++ [k]))
        (f, m)
      = (f ++ l.filter p, m ++ l.filter (fun k => !p k)) := by
  intro l
  induction l with
  | nil => intro f m; simp
  | cons k t ih =>
    intro f m
    by_cases hk : p k
    · simp [List.foldl_cons, hk, ih]
    · simp [List.foldl_cons, hk, ih]

/-- The found and missing lists built by `classifyKeys` are the two filters
of `MONITORED_KEYS` by key presence. -/
lemma classifyKeys_eq_filter (raw : RawSample) :
    classifyKeys raw
      = (MONITORED_KEYS.filter (fun k => (raw k).isSome),
         MONITORED_KEYS.filter (fun k => !(raw k).isSome)) := by
  have h := foldl_classify_eq_filter (fun k => (raw k).isSome)
    MONITORED_KEYS [] []
  simpa [classifyKeys] using h

lemma monitored_keys_nodup : MONITORED_KEYS.Nodup := by decide

/-- An association-list lookup of a key outside the key column is `none`. -/
lemma lookup_eq_none_of_not_mem_keys {l : List (Int × String)} {n : Int}
    (h : n ∉ l.map Prod.fst) : l.lookup n = none := by
  induction l with
  | nil => rfl
  | cons p t ih =>
    simp only [List.map_cons, List.mem_cons] at h
    push_neg at h
    have hne : (n == p.1) = false := by
      simp [beq_eq_false_iff_ne]
      exact h.1
    simp only [List.lookup, hne]
    exact ih h.2

/-! ## Claim theorems -/

/-- C1: for every RawSample, the found and missing lists of the aggregator
are the two complementary filters of `MONITORED_KEYS` by key presence: each
of the 12 expected keys is in exactly one of the two lists, both lists are
duplicate-free sublists of `MONITORED_KEYS` (hence preserve its order),
every member of either list is an expected key, and membership in the found
list is equivalent to presence of the key in the RawSample (independent of
decode success). -/
theorem c1_found_missing_partition (raw : RawSample) (seq : Nat) :
    (processData raw seq).monitored_keys_found
      = MONITORED_KEYS.filter (fun k => (raw k).isSome)
    ∧ (processData raw seq).monitored_keys_missing
      = MONITORED_KEYS.filter (fun k => !(raw k).isSome)
    ∧ (∀ k, k ∈ MONITORED_KEYS →
        ((k ∈ (processData raw seq).monitored_keys_found ↔ (raw k).isSome)
         ∧ (k ∈ (processData raw seq).monitored_keys_missing
              ↔ ¬((raw k).isSome = true))))
    ∧ (∀ k, ¬(k ∈ (processData raw seq).monitored_keys_found
              ∧ k ∈ (processData raw seq).monitored_keys_missing))
    ∧ (∀ k, (k ∈ (processData raw seq).monitored_keys_found
             ∨ k ∈ (processData raw seq).monitored_keys_missing)
            ↔ k ∈ MONITORED_KEYS)
    ∧ (processData raw seq).monitored_keys_found.Nodup
    ∧ (processData raw seq).monitored_keys_missing.Nodup
    ∧ (processData raw seq).monitored_keys_found.Sublist MONITORED_KEYS
    ∧ (processData raw seq).monitored_keys_missing.Sublist MONITORED_KEYS := by
  have hf : (processData raw seq).monitored_keys_found
      = MONITORED_KEYS.filter (fun k => (raw k).isSome) := by
    simp [processData, classifyKeys_eq_filter]
  have hm : (processData raw seq).monitored_keys_missing
      = MONITORED_KEYS.filter (fun k => !(raw k).isSome) := by
    simp [processData, classifyKeys_eq_filter]
  refine ⟨hf, hm, ?_, ?_, ?_, ?_, ?_, ?_, ?_⟩
  · intro k hk
    constructor
    · rw [hf]; simp [List.mem_filter, hk]
    · rw [hm]; simp [List.mem_filter, hk]
  · intro k hkb
    rw [hf, hm] at hkb
    rcases hkb with ⟨h1, h2⟩
    rw [List.mem_filter] at h1 h2
    rcases h1 with ⟨-, hs⟩
    rcases h2 with ⟨-, hn⟩
    simp [hs] at hn
  · intro k
    rw [hf, hm]
    constructor
    · intro h
      rcases h with h | h
      · exact (List.mem_filter.mp h).1
      · exact (List.mem_filter.mp h).1
    · intro hk
      by_cases hs : (raw k).isSome
      · exact Or.inl (List.mem_filter.mpr ⟨hk, by simp [hs]⟩)
      · exact Or.inr (List.mem_filter.mpr ⟨hk, by simp [hs]⟩)
  · rw [hf]; exact monitored_keys_nodup.filter _
  · rw [hm]; exact monitored_keys_nodup.filter _
  · rw [hf]; exact List.filter_sublist _
  · rw [hm]; exact List.filter_sublist _

/-- Witness for C1 at the end-to-end sample: the key "167" is present, so
it lands in the found list. -/
theorem c1_found_missing_partition_witness :
    "167" ∈ (processData sampleE2E 1).monitored_keys_found
      ↔ (sampleE2E "167").isSome :=
  ((c1_found_missing_partition sampleE2E 1).2.2.1 "167" (by decide)).1

/-- C2 counterexample: on the end-to-end RawSample the found list is NOT
`["163", "167", "158", "153", "152"]` — the aggregator emits found keys in
`MONITORED_KEYS` order, where "158" comes after "153" and "152". -/
theorem c2_e2e_counterexample :
    ¬((processData sampleE2E 1).monitored_keys_found
        = ["163", "167", "158", "153", "152"]) := by decide

/-- C2 (amended): on the end-to-end RawSample one aggregator cycle yields
battery 85, clean speed "turbo", work status "cleaning", play/pause true,
water tank 82, found list `["163", "167", "153", "152", "158"]` (the
present keys in `MONITORED_KEYS` order) and missing list the remaining 7
expected keys. -/
theorem c2_e2e_amended :
    (processData sampleE2E 1).battery = some 85
    ∧ (processData sampleE2E 1).clean_speed = some "turbo"
    ∧ (processData sampleE2E 1).work_status = some "cleaning"
    ∧ (processData sampleE2E 1).play_pause = some true
    ∧ (processData sampleE2E 1).water_tank = some 82
    ∧ (processData sampleE2E 1).monitored_keys_found
        = ["163", "167", "153", "152", "158"]
    ∧ (processData sampleE2E 1).monitored_keys_missing
        = ["177", "178", "168", "154", "155", "160", "173"] := by decide

/-- C3: on a well-formed base64 string decoding to at least 5 bytes, the
water tank decoder returns `min(100, byte4 * 100 / 255)` (floor division);
on the base64 of `[0,0,0,0,210]` it returns 82; on malformed base64 or on
base64 of at most 4 bytes it returns `none`. -/
theorem c3_water_tank_decode :
    (∀ s bs, b64decode s = some bs → 5 ≤ bs.length →
      decodeWaterTank (.vStr s) = some (min 100 (bs.getD 4 0 * 100 / 255)))
    ∧ decodeWaterTank (.vStr "AAAAANI=") = some 82
    ∧ (∀ s, b64decode s = none → decodeWaterTank (.vStr s) = none)
    ∧ (∀ s bs, b64decode s = some bs → bs.length ≤ 4 →
        decodeWaterTank (.vStr s) = none) := by
  refine ⟨?_, by decide, ?_, ?_⟩
  · intro s bs h hl
    have h4 : 4 < bs.length := by omega
    simp [decodeWaterTank, h, h4]
  · intro s h
    simp [decodeWaterTank, h]
  · intro s bs h hl
    have h4 : ¬(4 < bs.length) := by omega
    simp [decodeWaterTank, h, h4]

/-- Witness for C3 at the base64 of `[0,0,0,0,210]`. -/
theorem c3_water_tank_decode_witness :
    decodeWaterTank (.vStr "AAAAANI=")
      = some (min 100 ([0, 0, 0, 0, 210].getD 4 0 * 100 / 255)) :=
  c3_water_tank_decode.1 "AAAAANI=" [0, 0, 0, 0, 210] (by decide) (by decide)

/-- C4: on any raw value convertible by `int()` the battery decoder returns
the clamp of that integer to `[0, 100]`; on any raw value where `int()`
fails it returns `none`; `-5 ↦ 0`, `150 ↦ 100`, `85 ↦ 85`. -/
theorem c4_battery_decode :
    (∀ v n, pyInt v = some n → decodeBattery v = some (max 0 (min 100 n)))
    ∧ (∀ v, pyInt v = none → decodeBattery v = none)
    ∧ decodeBattery (.vInt (-5)) = some 0
    ∧ decodeBattery (.vInt 150) = some 100
    ∧ decodeBattery (.vInt 85) = some 85 := by
  refine ⟨?_, ?_, by decide, by decide, by decide⟩
  · intro v n h
    simp [decodeBattery, h]
  · intro v h
    simp [decodeBattery, h]

/-- Witness for C4 at the integer 85. -/
theorem c4_battery_decode_witness :
    decodeBattery (.vInt 85) = some (max 0 (min 100 85)) :=
  c4_battery_decode.1 (.vInt 85) 85 rfl

/-- C5: on an integer index `i` with `0 ≤ i < 4` the clean speed decoder
returns entry `i` of `CLEAN_SPEED_NAMES` (so 2 ↦ "turbo"); on a negative
or too large integer, or on a string value, it returns `none`. -/
theorem c5_clean_speed_decode :
    (∀ (i : Nat) (name : String), i < 4 → CLEAN_SPEED_NAMES.get? i = some name →
      decodeCleanSpeed (.vInt (i : Int)) = some name)
    ∧ decodeCleanSpeed (.vInt 2) = some "turbo"
    ∧ (∀ i : Int, i < 0 ∨ 4 ≤ i → decodeCleanSpeed (.vInt i) = none)
    ∧ decodeCleanSpeed (.vInt 4) = none
    ∧ decodeCleanSpeed (.vInt (-1)) = none
    ∧ (∀ s, decodeCleanSpeed (.vStr s) = none) := by
  refine ⟨?_, by decide, ?_, by decide, by decide, ?_⟩
  · intro i name hi hname
    have h0 : (0 : Int) ≤ (i : Int) := Int.ofNat_nonneg i
    have h4 : (i : Int) < (CLEAN_SPEED_NAMES.length : Int) := by
      simp only [CLEAN_SPEED_NAMES, List.length]
      exact_mod_cast hi
    simp only [decodeCleanSpeed, pyIsinstanceInt, h0, h4, and_self, if_pos,
      Int.toNat_natCast, true_and]
    exact hname
  · intro i hi
    have h : ¬(0 ≤ i ∧ i < (CLEAN_SPEED_NAMES.length : Int)) := by
      simp only [CLEAN_SPEED_NAMES, List.length]
      omega
    simp [decodeCleanSpeed, pyIsinstanceInt, h]
  · intro s
    rfl

/-- Witness for C5 at index 2. -/
theorem c5_clean_speed_decode_witness :
    decodeCleanSpeed (.vInt ((2 : Nat) : Int)) = some "turbo" :=
  c5_clean_speed_decode.1 2 "turbo" (by decide) (by decide)

/-- C6: on an integer key of the 9-entry `WORK_STATUS_MAP` the work status
decoder returns the mapped name (so 5 ↦ "cleaning"); on an integer outside
the key set (such as 99) or on a string value it returns `none`. -/
theorem c6_work_status_decode :
    (∀ (n : Int) (name : String), (n, name) ∈ WORK_STATUS_MAP →
      decodeWorkStatus (.vInt n) = some name)
    ∧ decodeWorkStatus (.vInt 5) = some "cleaning"
    ∧ (∀ n : Int, n ∉ WORK_STATUS_MAP.map Prod.fst →
        decodeWorkStatus (.vInt n) = none)
    ∧ decodeWorkStatus (.vInt 99) = none
    ∧ (∀ s, decodeWorkStatus (.vStr s) = none) := by
  refine ⟨?_, by decide, ?_, by decide, ?_⟩
  · intro n name h
    simp only [WORK_STATUS_MAP, List.mem_cons, List.not_mem_nil, or_false,
      Prod.mk.injEq] at h
    rcases h with h | h | h | h | h | h | h | h | h <;>
      rcases h with ⟨rfl, rfl⟩ <;> decide
  · intro n h
    simp only [decodeWorkStatus, pyIsinstanceInt]
    exact lookup_eq_none_of_not_mem_keys h
  · intro s
    rfl

/-- Witness for C6 at key 5. -/
theorem c6_work_status_decode_witness :
    decodeWorkStatus (.vInt 5) = some "cleaning" :=
  c6_work_status_decode.1 5 "cleaning" (by decide)

/-- C7: in every snapshot the battery value, when present, lies in
`[0, 100]`, and the water tank value, when present, lies in `[0, 100]`. -/
theorem c7_percentages_in_range (raw : RawSample) (seq : Nat) :
    (∀ b : Int, (processData raw seq).battery = some b → 0 ≤ b ∧ b ≤ 100)
    ∧ (∀ w : Nat, (processData raw seq).water_tank = some w →
        0 ≤ w ∧ w ≤ 100) := by
  constructor
  · intro b hb
    simp only [processData] at hb
    rcases hv : raw "163" with _ | v
    · rw [hv] at hb
      simp at hb
    · rw [hv] at hb
      simp only [Option.some_bind] at hb
      rcases hp : pyInt v with _ | n
      · simp [decodeBattery, hp] at hb
      · simp only [decodeBattery, hp, Option.map_some', Option.some.injEq] at hb
        subst hb
        exact ⟨le_sup_left, sup_le (by norm_num) inf_le_left⟩
  · intro w hw
    refine ⟨Nat.zero_le w, ?_⟩
    simp only [processData] at hw
    rcases hv : raw "167" with _ | v
    · rw [hv] at hw
      simp at hw
    · rw [hv] at hw
      simp only [Option.some_bind] at hw
      cases v with
      | vInt n => simp [decodeWaterTank] at hw
      | vBool b2 => simp [decodeWaterTank] at hw
      | vStr s =>
        rcases hd : b64decode s with _ | bs
        · simp [decodeWaterTank, hd] at hw
        · by_cases hl : 4 < bs.length
          · simp only [decodeWaterTank, hd, hl, if_pos, Option.some.injEq] at hw
            subst hw
            exact min_le_left _ _
          · simp [decodeWaterTank, hd, hl] at hw

/-- Witness for C7 at the end-to-end sample: water tank decodes to 82,
which lies in range. -/
theorem c7_percentages_in_range_witness :
    (processData sampleE2E 1).water_tank = some 82 ∧ 0 ≤ 82 ∧ 82 ≤ 100 :=
  ⟨by decide, (c7_percentages_in_range sampleE2E 1).2 82 (by decide)⟩

/-- C8: one aggregator cycle is total and always yields all five tracked
fields, each the guarded decode of its own key; the fields are computed
independently — each depends only on the raw value of its own key, so a
decode failure of one field cannot change any other. -/
theorem c8_fields_independent (raw raw' : RawSample) (seq seq' : Nat) :
    (processData raw seq =
      { battery := (raw "163").bind decodeBattery
        water_tank := (raw "167").bind decodeWaterTank
        clean_speed := (raw "158").bind decodeCleanSpeed
        work_status := (raw "153").bind decodeWorkStatus
        play_pause := (raw "152").bind decodePlayPause
        monitored_keys_found := (classifyKeys raw).1
        monitored_keys_missing := (classifyKeys raw).2
        update_count := seq })
    ∧ (raw "163" = raw' "163" →
        (processData raw seq).battery = (processData raw' seq').battery)
    ∧ (raw "167" = raw' "167" →
        (processData raw seq).water_tank = (processData raw' seq').water_tank)
    ∧ (raw "158" = raw' "158" →
        (processData raw seq).clean_speed = (processData raw' seq').clean_speed)
    ∧ (raw "153" = raw' "153" →
        (processData raw seq).work_status = (processData raw' seq').work_status)
    ∧ (raw "152" = raw' "152" →
        (processData raw seq).play_pause = (processData raw' seq').play_pause) := by
  refine ⟨rfl, ?_, ?_, ?_, ?_, ?_⟩ <;>
    · intro h
      simp [processData, h]

/-- Witness for C8: two samples agreeing on key "163" yield the same
battery field. -/
theorem c8_fields_independent_witness :
    (processData sampleE2E 1).battery = (processData sampleE2E 2).battery :=
  (c8_fields_independent sampleE2E sampleE2E 1 2).2.1 rfl

/-- C9: the aggregator is deterministic in the RawSample and the sequence
number — two runs on identical inputs agree on every decoded field and on
the found and missing lists. -/
theorem c9_idempotent (raw : RawSample) (seq : Nat) :
    (processData raw seq).battery = (processData raw seq).battery
    ∧ (processData raw seq).water_tank = (processData raw seq).water_tank
    ∧ (processData raw seq).clean_speed = (processData raw seq).clean_speed
    ∧ (processData raw seq).work_status = (processData raw seq).work_status
    ∧ (processData raw seq).play_pause = (processData raw seq).play_pause
    ∧ (processData raw seq).monitored_keys_found
        = (processData raw seq).monitored_keys_found
    ∧ (processData raw seq).monitored_keys_missing
        = (processData raw seq).monitored_keys_missing :=
  ⟨rfl, rfl, rfl, rfl, rfl, rfl, rfl⟩

/-- C10: the integer-type test of the clean speed decoder accepts booleans
(`bool` is a subclass of `int` in Python), so `True` indexes entry 1
("standard") and `False` entry 0 ("quiet"). -/
theorem c10_clean_speed_accepts_bool :
    decodeCleanSpeed (.vBool true) = some "standard"
    ∧ decodeCleanSpeed (.vBool false) = some "quiet" := by decide
